import Mathlib

/-!
Verification of the interwikidata bot script (scripts/interwikidata.py).

The script is a single page-processing loop: for each page it reads the
language links embedded in the page text, resolves or creates the associated
data-repository item, and optionally removes the language links from the page
("clean" mode).  All external collaborators (page store, data-repository
client, text utilities) are modelled as a pure environment, and each run of
the bot over a page is embedded as a function producing a trace of events:
console output, warnings, item lookups, repository mutations and page saves.
-/

/-- A wiki site, identified by its database name and its language code
(models the pywikibot site objects as used by the script:
site.dbName() and site.lang). -/
structure Site where
  dbName : String
  lang : String
deriving DecidableEq, Repr

/-- Modelled from the spec: page text as seen through the text utility
collaborator (pywikibot.textlib), which is not part of this repository.
Per the spec's data model, a LanguageLink is a (site, title) pair embedded
in page text; the rest of the text is opaque here. -/
structure PageText where
  langlinks : List (Site × String)
  body : String
deriving DecidableEq, Repr

/-- Modelled from the spec: pywikibot.textlib.getLanguageLinks, the external
"text utility providing language-link extraction ... given raw page text".
Returns the embedded language links as a mapping from site to linked title
(the dict iwlangs in the script). -/
def getLanguageLinks (t : PageText) : List (Site × String) :=
  t.langlinks

/-- Modelled from the spec: pywikibot.textlib.removeLanguageLinks, the
external text utility removing all language links from raw page text. -/
def removeLanguageLinks (t : PageText) : PageText :=
  { t with langlinks := [] }

/-- A wiki page: site, title, namespace number and text. -/
structure Page where
  site : Site
  title : String
  ns : Int
  text : PageText
deriving DecidableEq, Repr

/-- page.title(asLink=True). -/
def titleAsLink (p : Page) : String :=
  "[[" ++ p.title ++ "]]"

/-- A data-repository item: identifier (e.g. "Q5"), the sitelinks mapping
(site dbName to page title) and the labels mapping (language to label). -/
structure Item where
  id : String
  sitelinks : List (String × String)
  labels : List (String × String)
deriving DecidableEq, Repr

/-- The outcome of pywikibot.ItemPage.fromPage on a page: either an item is
found, or the call raises pywikibot.NoPage, or pywikibot.InvalidTitle. -/
inductive Lookup where
  | found (it : Item)
  | noPage
  | invalidTitle
deriving DecidableEq, Repr

/-- The sitelinks part of the entity data passed to editEntity by
create_item: one entry per site dbName, holding the site and title fields. -/
structure SitelinkEntry where
  site : String
  title : String
deriving DecidableEq, Repr

/-- The labels part of the entity data passed to editEntity by create_item:
one entry per language, holding the language and value fields. -/
structure LabelEntry where
  language : String
  value : String
deriving DecidableEq, Repr

/-- The data dict built by IWBot.create_item and passed to
ItemPage.editEntity. -/
structure EntityData where
  sitelinks : List (String × SitelinkEntry)
  labels : List (String × LabelEntry)
deriving DecidableEq, Repr

/-- One observable effect of processing a page: console output, a warning,
an item lookup (ItemPage.fromPage), a repository mutation
(ItemPage.setSitelink or ItemPage.editEntity) or a page-text save
(self.put_current). -/
inductive Event where
  | outputMsg (s : String)
  | warningMsg (s : String)
  | lookupItem (dbName : String) (title : String)
  | setSitelink (it : Item) (dbName : String) (title : String)
  | editEntity (data : EntityData) (isNew : Bool) (summary : String)
  | putCurrent (newText : PageText) (summary : String)
deriving DecidableEq, Repr

/-- The bot's environment: the data-repository client's answer to
ItemPage.fromPage for each (site, title), defaulting to raising NoPage when
no item is connected, and the bot options set up in IWBot's constructor. -/
structure Env where
  fromPage : List ((Site × String) × Lookup)
  clean : Bool
  create : Bool
  ignore_ns : Bool
  summary : String
deriving Repr

/-- The answer of ItemPage.fromPage for a page key in the environment. -/
def envLookup (env : Env) (l : Site × String) : Lookup :=
  match env.fromPage.find? (fun p => decide (p.1 = l)) with
  | some p => p.2
  | none => Lookup.noPage

/-- Allowed namespaces: main, project, template, category. -/
def allowedNamespaces : List Int := [0, 4, 10, 14]

/-- Python truthiness of the variable item in treat_page: it is either None
(the current page has no item), False (returned by try_to_add on conflict)
or an actual item. -/
inductive PyItem where
  | none
  | falseVal
  | item (it : Item)
deriving DecidableEq, Repr

/-- Python truthiness: None and False are falsy, an item is truthy. -/
def PyItem.truthy : PyItem → Bool
  | PyItem.item _ => true
  | _ => false

/-- IWBot.handle_complicated: the base-class hook for interwiki-conflict
resolution; it always returns False (subclasses may change that). -/
def handle_complicated : Bool := false

/-- The loop body of IWBot.try_to_add: iterate over iwlangs.values(),
adding ItemPage.fromPage(iw_page) to the set wd_data, catching NoPage and
InvalidTitle with a warning and continuing.  Returns the trace of events and
the resulting set wd_data (a duplicate-free list, insertion ordered);
acc is the set built so far. -/
def resolveLinks (env : Env) (links : List (Site × String)) (acc : List Item) :
    List Event × List Item :=
  match links with
  | [] => ([], acc)
  | l :: ls =>
    let ev := Event.lookupItem l.1.dbName l.2
    match envLookup env l with
    | Lookup.found it =>
        let acc' := if acc.contains it then acc else acc ++ [it]
        let r := resolveLinks env ls acc'
        (ev :: r.1, r.2)
    | Lookup.noPage =>
        let w := Event.warningMsg
          ("Interwiki [[" ++ l.2 ++ "]] does not exist, skipping...")
        let r := resolveLinks env ls acc
        (ev :: w :: r.1, r.2)
    | Lookup.invalidTitle =>
        let w := Event.warningMsg
          ("Invalid title [[" ++ l.2 ++ "]], skipping...")
        let r := resolveLinks env ls acc
        (ev :: w :: r.1, r.2)

/-- IWBot.try_to_add: resolve the set of items referenced by the linked
pages; on a candidate set of size other than one, or when the item already
has a sitelink for the current page's site, warn and return False; otherwise
add the current page as a sitelink and return the item. -/
def try_to_add (env : Env) (page : Page) (iwlangs : List (Site × String)) :
    List Event × PyItem :=
  let evs := (resolveLinks env iwlangs []).1
  let wd_data := (resolveLinks env iwlangs []).2
  match wd_data with
  | [it] =>
      if (it.sitelinks.map Prod.fst).contains page.site.dbName then
        (evs ++ [Event.warningMsg
          ("Interwiki conflict in [[" ++ it.id ++ "]], skipping...")],
         PyItem.falseVal)
      else
        (evs ++ [Event.outputMsg ("Adding link to " ++ it.id),
                 Event.setSitelink it page.site.dbName page.title],
         PyItem.item it)
  | _ =>
      (evs ++ [Event.warningMsg
        ("Interwiki conflict in " ++ titleAsLink page ++ ", skipping...")],
       PyItem.falseVal)

/-- IWBot.create_item: build the entity data with a single sitelink (the
current page) and a single label (the page title in the site's language),
create a fresh item with that data, and return it. -/
def create_item (_env : Env) (page : Page) : List Event × Item :=
  let data : EntityData :=
    { sitelinks := [(page.site.dbName,
        { site := page.site.dbName, title := page.title })],
      labels := [(page.site.lang,
        { language := page.site.lang, value := page.title })] }
  let summary := "Bot: New item with sitelink from " ++ titleAsLink page
  let newItem : Item :=
    { id := "new item",
      sitelinks := data.sitelinks.map (fun p => (p.1, p.2.title)),
      labels := data.labels.map (fun p => (p.1, p.2.value)) }
  ([Event.editEntity data true summary,
    Event.outputMsg ("Created item " ++ newItem.id)],
   newItem)

/-- Python strict subset on sets built from the two lists:
set(a) < set(b). -/
def pyStrictSubset (a b : List String) : Bool :=
  a.all (fun x => b.contains x) && b.any (fun y => !(a.contains y))

/-- IWBot.clean_page: if the set of dbNames of the sites of the embedded
language links is a strict subset of the item's sitelink keys, the script
treats it as an interwiki conflict (unless handle_complicated resolves it)
and warns; otherwise it removes the language links from the page text and
saves with the configured summary. -/
def clean_page (env : Env) (page : Page) (iwlangs : List (Site × String))
    (current_item : Item) : List Event :=
  if iwlangs = [] then []
  else
    let dbnames := iwlangs.map (fun l => l.1.dbName)
    if pyStrictSubset dbnames (current_item.sitelinks.map Prod.fst) then
      if !handle_complicated then
        [Event.warningMsg
          ("Interwiki conflict in " ++ titleAsLink page ++ ", skipping...")]
      else
        [Event.outputMsg "Cleaning up the page",
         Event.putCurrent (removeLanguageLinks page.text) env.summary]
    else
      [Event.outputMsg "Cleaning up the page",
       Event.putCurrent (removeLanguageLinks page.text) env.summary]

/-- Lines 90-93 of treat_page: when the current page has no item, run
try_to_add; when the create option is set and the result is None (NOT
False), run create_item.  try_to_add only ever returns an item or False,
so the create_item branch requires t.2 = PyItem.none. -/
def resolve_or_create (env : Env) (page : Page)
    (iwlangs : List (Site × String)) : List Event × PyItem :=
  let t := try_to_add env page iwlangs
  match t.2, env.create with
  | PyItem.none, true =>
      let c := create_item env page
      (t.1 ++ c.1, PyItem.item c.2)
  | _, _ => t

/-- Lines 95-97 of treat_page: if item is truthy and the clean option is
set, run clean_page. -/
def clean_step (env : Env) (page : Page) (iwlangs : List (Site × String))
    (item1 : PyItem) : List Event :=
  match item1 with
  | PyItem.item it =>
      if env.clean then clean_page env page iwlangs it else []
  | _ => []

/-- IWBot.treat_page: namespace filter, language-link extraction, item
resolution or creation, and the optional clean step.  Returns the trace of
events, or an error when ItemPage.fromPage on the current page raises
InvalidTitle, which the script does not catch. -/
def treat_page (env : Env) (page : Page) : Except String (List Event) :=
  if !(allowedNamespaces.contains page.ns) && !env.ignore_ns then
    Except.ok [Event.outputMsg
      (titleAsLink page ++ " is not in allowed namespaces, skipping")]
  else
    let iwlangs := getLanguageLinks page.text
    if iwlangs = [] then
      Except.ok [Event.outputMsg
        ("No interlanguagelinks on " ++ titleAsLink page)]
    else
      let ev0 := Event.lookupItem page.site.dbName page.title
      match envLookup env (page.site, page.title) with
      | Lookup.invalidTitle => Except.error "pywikibot.InvalidTitle"
      | res =>
        let step : List Event × PyItem :=
          match res with
          | Lookup.found it => ([], PyItem.item it)
          | _ => resolve_or_create env page iwlangs
        Except.ok (ev0 :: step.1 ++ clean_step env page iwlangs step.2)

/-- A site configuration as IWBot.__init__ sees it. -/
structure SiteConf where
  name : String
  has_data_repository : Bool
deriving DecidableEq, Repr

/-- IWBot.__init__ followed by the page loop of bot.run: construction fails
with ValueError when the site has no data repository, before any page is
processed; otherwise each page is processed in sequence and the traces are
concatenated. -/
def bot_run (site : SiteConf) (env : Env) (pages : List Page) :
    Except String (List Event) :=
  if !site.has_data_repository then
    Except.error (site.name ++ " does not have a data repository, " ++
      "use interwiki.py instead.")
  else
    pages.foldlM (fun acc p => (treat_page env p).map (fun evs => acc ++ evs)) []

/-- Is the event a page-text save? -/
def Event.isPutCurrent : Event → Bool
  | Event.putCurrent _ _ => true
  | _ => false

/-- Is the event a repository-item mutation (setSitelink or editEntity)? -/
def Event.isItemMutation : Event → Bool
  | Event.setSitelink _ _ _ => true
  | Event.editEntity _ _ _ => true
  | _ => false

/-- Is the event a sitelink addition? -/
def Event.isSetSitelink : Event → Bool
  | Event.setSitelink _ _ _ => true
  | _ => false

/-- Is the event an item creation (editEntity)? -/
def Event.isEditEntity : Event → Bool
  | Event.editEntity _ _ _ => true
  | _ => false

/-- Is the event an item lookup (ItemPage.fromPage)? -/
def Event.isLookup : Event → Bool
  | Event.lookupItem _ _ => true
  | _ => false

/-- The shape of every interwiki-conflict warning emitted by the script
(in try_to_add and clean_page): s is the rendering of the conflicting
page or item. -/
def conflictWarning (s : String) : Event :=
  Event.warningMsg ("Interwiki conflict in " ++ s ++ ", skipping...")

/-- Is the event any warning? -/
def Event.isWarning : Event → Bool
  | Event.warningMsg _ => true
  | _ => false

/-- Did the Lookup raise (NoPage or InvalidTitle)? -/
def Lookup.isFailure : Lookup → Bool
  | Lookup.found _ => false
  | _ => true

/-- The candidate set built by the try_to_add loop contains exactly the
items already accumulated plus those found for some linked page; failed
lookups contribute nothing and do not stop the loop. -/
theorem resolveLinks_mem (env : Env) (links : List (Site × String)) :
    ∀ (acc : List Item) (it : Item),
      it ∈ (resolveLinks env links acc).2 ↔
        it ∈ acc ∨ ∃ l ∈ links, envLookup env l = Lookup.found it := by
  induction links with
  | nil =>
    intro acc it
    simp [resolveLinks]
  | cons l ls ih =>
    intro acc it
    cases hl : envLookup env l with
    | found it' =>
      have hacc : ∀ x : Item,
          (x ∈ (if acc.contains it' then acc else acc ++ [it'])) ↔
            x ∈ acc ∨ x = it' := by
        intro x
        by_cases hc : acc.contains it' = true
        · have hm : it' ∈ acc := by simpa using hc
          rw [if_pos hc]
          constructor
          · exact Or.inl
          · rintro (h | rfl)
            · exact h
            · exact hm
        · rw [if_neg hc]
          simp [List.mem_append]
      rw [show (resolveLinks env (l :: ls) acc).2 =
            (resolveLinks env ls
              (if acc.contains it' then acc else acc ++ [it'])).2 by
          simp [resolveLinks, hl]]
      rw [ih, hacc _]
      constructor
      · rintro ((h | rfl) | ⟨l', hl', hf⟩)
        · exact Or.inl h
        · exact Or.inr ⟨l, List.mem_cons_self l ls, hl⟩
        · exact Or.inr ⟨l', List.mem_cons_of_mem l hl', hf⟩
      · rintro (h | ⟨l', hl', hf⟩)
        · exact Or.inl (Or.inl h)
        · rcases List.mem_cons.mp hl' with rfl | hmem2
          · rw [hl] at hf
            injection hf with h2
            exact Or.inl (Or.inr h2.symm)
          · exact Or.inr ⟨l', hmem2, hf⟩
    | noPage =>
      rw [show (resolveLinks env (l :: ls) acc).2 =
            (resolveLinks env ls acc).2 by simp [resolveLinks, hl]]
      rw [ih]
      constructor
      · rintro (h | ⟨l', hl', hf⟩)
        · exact Or.inl h
        · exact Or.inr ⟨l', List.mem_cons_of_mem l hl', hf⟩
      · rintro (h | ⟨l', hl', hf⟩)
        · exact Or.inl h
        · rcases List.mem_cons.mp hl' with rfl | hmem2
          · rw [hl] at hf
            simp at hf
          · exact Or.inr ⟨l', hmem2, hf⟩
    | invalidTitle =>
      rw [show (resolveLinks env (l :: ls) acc).2 =
            (resolveLinks env ls acc).2 by simp [resolveLinks, hl]]
      rw [ih]
      constructor
      · rintro (h | ⟨l', hl', hf⟩)
        · exact Or.inl h
        · exact Or.inr ⟨l', List.mem_cons_of_mem l hl', hf⟩
      · rintro (h | ⟨l', hl', hf⟩)
        · exact Or.inl h
        · rcases List.mem_cons.mp hl' with rfl | hmem2
          · rw [hl] at hf
            simp at hf
          · exact Or.inr ⟨l', hmem2, hf⟩

/-- The try_to_add loop emits exactly one warning per linked page whose
lookup raises (NoPage or InvalidTitle). -/
theorem resolveLinks_warn_count (env : Env) (links : List (Site × String)) :
    ∀ acc : List Item,
      (resolveLinks env links acc).1.countP Event.isWarning =
        links.countP (fun l => (envLookup env l).isFailure) := by
  induction links with
  | nil =>
    intro acc
    simp [resolveLinks]
  | cons l ls ih =>
    intro acc
    cases hl : envLookup env l with
    | found it =>
      simp [resolveLinks, hl, ih, List.countP_cons, Event.isWarning,
        Lookup.isFailure]
    | noPage =>
      simp [resolveLinks, hl, ih, List.countP_cons, Event.isWarning,
        Lookup.isFailure]
    | invalidTitle =>
      simp [resolveLinks, hl, ih, List.countP_cons, Event.isWarning,
        Lookup.isFailure]

/-- The try_to_add loop only emits lookups and warnings: any event
predicate false on those filters to nothing. -/
theorem resolveLinks_filter_none (env : Env) (p : Event → Bool)
    (hlk : ∀ d t, p (Event.lookupItem d t) = false)
    (hw : ∀ s, p (Event.warningMsg s) = false)
    (links : List (Site × String)) :
    ∀ acc : List Item, (resolveLinks env links acc).1.filter p = [] := by
  induction links with
  | nil =>
    intro acc
    simp [resolveLinks]
  | cons l ls ih =>
    intro acc
    cases hl : envLookup env l with
    | found it => simp [resolveLinks, hl, List.filter_cons, hlk, ih]
    | noPage => simp [resolveLinks, hl, List.filter_cons, hlk, hw, ih]
    | invalidTitle => simp [resolveLinks, hl, List.filter_cons, hlk, hw, ih]

/-- clean_page only emits warnings, output and page saves: any event
predicate false on those filters to nothing. -/
theorem clean_page_filter_none (env : Env) (page : Page)
    (iwlangs : List (Site × String)) (it : Item) (p : Event → Bool)
    (hw : ∀ s, p (Event.warningMsg s) = false)
    (ho : ∀ s, p (Event.outputMsg s) = false)
    (hpc : ∀ t s, p (Event.putCurrent t s) = false) :
    (clean_page env page iwlangs it).filter p = [] := by
  simp [clean_page, handle_complicated, apply_ite (List.filter p),
    List.filter_cons, hw, ho, hpc]

/-- String append is associative (via the underlying character lists). -/
theorem strAppendAssoc (a b c : String) : a ++ b ++ c = a ++ (b ++ c) := by
  apply String.ext
  simp [String.data_append, List.append_assoc]

/-- The conflict warning of try_to_add for a pre-existing sitelink has the
common conflict-warning shape. -/
theorem conflict_msg_eq (x : String) :
    ("Interwiki conflict in [[" ++ x ++ "]], skipping..." : String) =
      "Interwiki conflict in " ++ ("[[" ++ x ++ "]]") ++ ", skipping..." := by
  have h1 : ("Interwiki conflict in [[" : String) =
      "Interwiki conflict in " ++ "[[" := rfl
  have h2 : ("]], skipping..." : String) = "]]" ++ ", skipping..." := rfl
  rw [h1, h2, strAppendAssoc "Interwiki conflict in " "[[" x,
    ← strAppendAssoc ("Interwiki conflict in " ++ ("[[" ++ x)) "]]" ", skipping...",
    strAppendAssoc "Interwiki conflict in " ("[[" ++ x) "]]"]

/-- try_to_add when the candidate set is a single item without a sitelink
for the current page's site: the lookup/warning trace of the loop is
followed by exactly the sitelink addition of the current page, and the item
is returned. -/
theorem try_to_add_adds (env : Env) (page : Page)
    (iwlangs : List (Site × String)) (it : Item)
    (hres : (resolveLinks env iwlangs []).2 = [it])
    (hnosl : (it.sitelinks.map Prod.fst).contains page.site.dbName = false) :
    try_to_add env page iwlangs =
      ((resolveLinks env iwlangs []).1 ++
        [Event.outputMsg ("Adding link to " ++ it.id),
         Event.setSitelink it page.site.dbName page.title],
       PyItem.item it) := by
  simp only [try_to_add, hres, hnosl, Bool.false_eq_true, if_false]

/-- try_to_add when resolution conflicts (candidate set of size other than
one, or a pre-existing sitelink for the current site): the loop trace is
followed by exactly a conflict warning, and False is returned. -/
theorem try_to_add_conflict (env : Env) (page : Page)
    (iwlangs : List (Site × String))
    (hc : (resolveLinks env iwlangs []).2.length ≠ 1 ∨
      ∃ it : Item, (resolveLinks env iwlangs []).2 = [it] ∧
        (it.sitelinks.map Prod.fst).contains page.site.dbName = true) :
    ∃ s : String, try_to_add env page iwlangs =
      ((resolveLinks env iwlangs []).1 ++ [conflictWarning s],
       PyItem.falseVal) := by
  rcases hc with hlen | ⟨it, hres, hsl⟩
  · rcases hw : (resolveLinks env iwlangs []).2 with _ | ⟨a, _ | ⟨b, t⟩⟩
    · exact ⟨titleAsLink page, by simp only [try_to_add, hw, conflictWarning]⟩
    · rw [hw] at hlen
      simp at hlen
    · exact ⟨titleAsLink page, by simp only [try_to_add, hw, conflictWarning]⟩
  · refine ⟨"[[" ++ it.id ++ "]]", ?_⟩
    simp only [try_to_add, hres]
    rw [if_pos hsl]
    simp only [conflictWarning, conflict_msg_eq]

/-- try_to_add only emits lookups, warnings, output and sitelink
additions: any event predicate false on those filters to nothing. -/
theorem try_to_add_filter_none (env : Env) (page : Page)
    (iwlangs : List (Site × String)) (p : Event → Bool)
    (hlk : ∀ d t, p (Event.lookupItem d t) = false)
    (hw : ∀ s, p (Event.warningMsg s) = false)
    (ho : ∀ s, p (Event.outputMsg s) = false)
    (hsl : ∀ it d t, p (Event.setSitelink it d t) = false) :
    (try_to_add env page iwlangs).1.filter p = [] := by
  have hr := resolveLinks_filter_none env p hlk hw iwlangs []
  rcases hw2 : (resolveLinks env iwlangs []).2 with _ | ⟨a, _ | ⟨b, t⟩⟩
  · simp [try_to_add, hw2, List.filter_append, List.filter_cons, hr, hw]
  · simp [try_to_add, hw2, apply_ite Prod.fst, apply_ite (List.filter p),
      List.filter_append, List.filter_cons, hr, hw, ho, hsl, ite_self]
  · simp [try_to_add, hw2, List.filter_append, List.filter_cons, hr, hw]

/-- create_item only emits an editEntity call and output. -/
theorem create_item_filter_none (env : Env) (page : Page) (p : Event → Bool)
    (ho : ∀ s, p (Event.outputMsg s) = false)
    (he : ∀ d b s, p (Event.editEntity d b s) = false) :
    (create_item env page).1.filter p = [] := by
  simp [create_item, List.filter_cons, ho, he]

/-- The item resolution-or-creation step only emits lookups, warnings,
output, sitelink additions and editEntity calls. -/
theorem resolve_or_create_filter_none (env : Env) (page : Page)
    (iwlangs : List (Site × String)) (p : Event → Bool)
    (hlk : ∀ d t, p (Event.lookupItem d t) = false)
    (hw : ∀ s, p (Event.warningMsg s) = false)
    (ho : ∀ s, p (Event.outputMsg s) = false)
    (hsl : ∀ it d t, p (Event.setSitelink it d t) = false)
    (he : ∀ d b s, p (Event.editEntity d b s) = false) :
    (resolve_or_create env page iwlangs).1.filter p = [] := by
  have h1 := try_to_add_filter_none env page iwlangs p hlk hw ho hsl
  have h2 := create_item_filter_none env page p ho he
  cases ht : (try_to_add env page iwlangs).2 with
  | none =>
    cases hcr : env.create with
    | true => simp [resolve_or_create, ht, hcr, List.filter_append, h1, h2]
    | false => simp [resolve_or_create, ht, hcr, h1]
  | falseVal => simp [resolve_or_create, ht, h1]
  | item it => simp [resolve_or_create, ht, h1]

/-- When the clean option is disabled, the clean step does nothing. -/
theorem clean_step_of_not_clean (env : Env) (page : Page)
    (iwlangs : List (Site × String)) (item1 : PyItem)
    (hclean : env.clean = false) :
    clean_step env page iwlangs item1 = [] := by
  cases item1 <;> simp [clean_step, hclean]

/-- The clean step only emits warnings, output and page saves. -/
theorem clean_step_filter_none (env : Env) (page : Page)
    (iwlangs : List (Site × String)) (item1 : PyItem) (p : Event → Bool)
    (hw : ∀ s, p (Event.warningMsg s) = false)
    (ho : ∀ s, p (Event.outputMsg s) = false)
    (hpc : ∀ t s, p (Event.putCurrent t s) = false) :
    (clean_step env page iwlangs item1).filter p = [] := by
  cases item1 with
  | item it =>
    cases hc : env.clean with
    | true =>
      simp only [clean_step, hc, if_true]
      exact clean_page_filter_none env page iwlangs it p hw ho hpc
    | false => simp [clean_step, hc]
  | none => simp [clean_step]
  | falseVal => simp [clean_step]

/-- treat_page on a page that passes the namespace filter, has language
links and has no item of its own: the trace is the current-page lookup,
the resolution-or-creation step and the clean step. -/
theorem treat_page_noitem (env : Env) (page : Page)
    (hns : (!(allowedNamespaces.contains page.ns) && !env.ignore_ns) = false)
    (hne : getLanguageLinks page.text ≠ [])
    (hcur : envLookup env (page.site, page.title) = Lookup.noPage) :
    treat_page env page = Except.ok
      (Event.lookupItem page.site.dbName page.title ::
        (resolve_or_create env page (getLanguageLinks page.text)).1 ++
        clean_step env page (getLanguageLinks page.text)
          (resolve_or_create env page (getLanguageLinks page.text)).2) := by
  simp only [treat_page, hns, Bool.false_eq_true, if_false, hne, hcur]

/-- treat_page on a page that passes the namespace filter, has language
links and already has its own item: the trace is the current-page lookup
followed by the clean step on that item. -/
theorem treat_page_withitem (env : Env) (page : Page) (it : Item)
    (hns : (!(allowedNamespaces.contains page.ns) && !env.ignore_ns) = false)
    (hne : getLanguageLinks page.text ≠ [])
    (hcur : envLookup env (page.site, page.title) = Lookup.found it) :
    treat_page env page = Except.ok
      (Event.lookupItem page.site.dbName page.title ::
        clean_step env page (getLanguageLinks page.text) (PyItem.item it)) := by
  simp only [treat_page, hns, Bool.false_eq_true, if_false, hne, hcur,
    List.singleton_append]

/-- treat_page on a page outside the allowed namespaces with no override:
only the skip notice. -/
theorem treat_page_nsskip (env : Env) (page : Page)
    (h : (!(allowedNamespaces.contains page.ns) && !env.ignore_ns) = true) :
    treat_page env page = Except.ok
      [Event.outputMsg
        (titleAsLink page ++ " is not in allowed namespaces, skipping")] := by
  simp only [treat_page, h, eq_self_iff_true, if_true]

/-- treat_page on a page that passes the namespace filter but has no
language links: only the no-links notice. -/
theorem treat_page_nolinks (env : Env) (page : Page)
    (hns : (!(allowedNamespaces.contains page.ns) && !env.ignore_ns) = false)
    (hempty : getLanguageLinks page.text = []) :
    treat_page env page = Except.ok
      [Event.outputMsg ("No interlanguagelinks on " ++ titleAsLink page)] := by
  simp only [treat_page, hns, Bool.false_eq_true, if_false, hempty,
    eq_self_iff_true, if_true]

/-- treat_page when ItemPage.fromPage on the current page raises
InvalidTitle: the exception propagates (the script catches only NoPage). -/
theorem treat_page_invalid (env : Env) (page : Page)
    (hns : (!(allowedNamespaces.contains page.ns) && !env.ignore_ns) = false)
    (hne : getLanguageLinks page.text ≠ [])
    (hcur : envLookup env (page.site, page.title) = Lookup.invalidTitle) :
    treat_page env page = Except.error "pywikibot.InvalidTitle" := by
  simp only [treat_page, hns, Bool.false_eq_true, if_false, hne, hcur]

/-- C4: for a page with no item of its own whose language links resolve to
a single item that has no sitelink for the current page's site, processing
emits exactly one sitelink addition - the current page onto that item - and
no item creation. -/
theorem claim_C4_single_item_adds_sitelink (env : Env) (page : Page)
    (it : Item) (evs : List Event)
    (hns : (!(allowedNamespaces.contains page.ns) && !env.ignore_ns) = false)
    (hne : getLanguageLinks page.text ≠ [])
    (hcur : envLookup env (page.site, page.title) = Lookup.noPage)
    (hres : (resolveLinks env (getLanguageLinks page.text) []).2 = [it])
    (hnosl : (it.sitelinks.map Prod.fst).contains page.site.dbName = false)
    (hok : treat_page env page = Except.ok evs) :
    evs.filter Event.isSetSitelink =
      [Event.setSitelink it page.site.dbName page.title] ∧
    evs.filter Event.isEditEntity = [] := by
  have htta := try_to_add_adds env page (getLanguageLinks page.text) it hres hnosl
  have hro : resolve_or_create env page (getLanguageLinks page.text) =
      ((resolveLinks env (getLanguageLinks page.text) []).1 ++
        [Event.outputMsg ("Adding link to " ++ it.id),
         Event.setSitelink it page.site.dbName page.title],
       PyItem.item it) := by
    simp [resolve_or_create, htta]
  rw [treat_page_noitem env page hns hne hcur, hro] at hok
  injection hok with hevs
  subst hevs
  constructor
  · have h1 := resolveLinks_filter_none env Event.isSetSitelink
      (fun _ _ => rfl) (fun _ => rfl) (getLanguageLinks page.text) []
    have h2 := clean_step_filter_none env page (getLanguageLinks page.text)
      (PyItem.item it) Event.isSetSitelink
      (fun _ => rfl) (fun _ => rfl) (fun _ _ => rfl)
    simp [List.filter_cons, List.filter_append, h1, h2, Event.isSetSitelink]
  · have h1 := resolveLinks_filter_none env Event.isEditEntity
      (fun _ _ => rfl) (fun _ => rfl) (getLanguageLinks page.text) []
    have h2 := clean_step_filter_none env page (getLanguageLinks page.text)
      (PyItem.item it) Event.isEditEntity
      (fun _ => rfl) (fun _ => rfl) (fun _ _ => rfl)
    simp [List.filter_cons, List.filter_append, h1, h2, Event.isEditEntity]

/-- C5: for a page with no item of its own whose language links resolve to
a candidate set of size other than one, or to a single item that already
has a sitelink for the current page's site, processing mutates nothing,
saves nothing, and reports a conflict warning. -/
theorem claim_C5_conflict_no_mutation (env : Env) (page : Page)
    (evs : List Event)
    (hns : (!(allowedNamespaces.contains page.ns) && !env.ignore_ns) = false)
    (hne : getLanguageLinks page.text ≠ [])
    (hcur : envLookup env (page.site, page.title) = Lookup.noPage)
    (hc : (resolveLinks env (getLanguageLinks page.text) []).2.length ≠ 1 ∨
      ∃ it : Item, (resolveLinks env (getLanguageLinks page.text) []).2 = [it] ∧
        (it.sitelinks.map Prod.fst).contains page.site.dbName = true)
    (hok : treat_page env page = Except.ok evs) :
    evs.filter Event.isItemMutation = [] ∧
    evs.filter Event.isPutCurrent = [] ∧
    ∃ s : String, conflictWarning s ∈ evs := by
  obtain ⟨s, htta⟩ := try_to_add_conflict env page (getLanguageLinks page.text) hc
  have hro : resolve_or_create env page (getLanguageLinks page.text) =
      ((resolveLinks env (getLanguageLinks page.text) []).1 ++
        [conflictWarning s], PyItem.falseVal) := by
    simp [resolve_or_create, htta]
  rw [treat_page_noitem env page hns hne hcur, hro] at hok
  injection hok with hevs
  subst hevs
  refine ⟨?_, ?_, s, ?_⟩
  · have h1 := resolveLinks_filter_none env Event.isItemMutation
      (fun _ _ => rfl) (fun _ => rfl) (getLanguageLinks page.text) []
    simp [List.filter_cons, List.filter_append, h1, clean_step,
      conflictWarning, Event.isItemMutation]
  · have h1 := resolveLinks_filter_none env Event.isPutCurrent
      (fun _ _ => rfl) (fun _ => rfl) (getLanguageLinks page.text) []
    simp [List.filter_cons, List.filter_append, h1, clean_step,
      conflictWarning, Event.isPutCurrent]
  · simp

/-- C6: for a page that passes the namespace filter and whose text contains
zero embedded language links, processing only reports the no-links notice:
no item lookup, no mutation, no save. -/
theorem claim_C6_no_links_notice (env : Env) (page : Page)
    (hns : (!(allowedNamespaces.contains page.ns) && !env.ignore_ns) = false)
    (hempty : getLanguageLinks page.text = []) :
    treat_page env page = Except.ok
      [Event.outputMsg ("No interlanguagelinks on " ++ titleAsLink page)] ∧
    [Event.outputMsg
      ("No interlanguagelinks on " ++ titleAsLink page)].filter
        Event.isLookup = [] ∧
    [Event.outputMsg
      ("No interlanguagelinks on " ++ titleAsLink page)].filter
        Event.isItemMutation = [] ∧
    [Event.outputMsg
      ("No interlanguagelinks on " ++ titleAsLink page)].filter
        Event.isPutCurrent = [] := by
  exact ⟨treat_page_nolinks env page hns hempty, rfl, rfl, rfl⟩

/-- C7: for a page outside the allowed namespaces with the override
disabled, processing only reports the skip notice: no language-link read
(no further events at all), no mutation, no save. -/
theorem claim_C7_namespace_skip (env : Env) (page : Page)
    (hns : allowedNamespaces.contains page.ns = false)
    (hign : env.ignore_ns = false) :
    treat_page env page = Except.ok
      [Event.outputMsg
        (titleAsLink page ++ " is not in allowed namespaces, skipping")] ∧
    [Event.outputMsg
      (titleAsLink page ++ " is not in allowed namespaces, skipping")].filter
        Event.isLookup = [] ∧
    [Event.outputMsg
      (titleAsLink page ++ " is not in allowed namespaces, skipping")].filter
        Event.isItemMutation = [] ∧
    [Event.outputMsg
      (titleAsLink page ++ " is not in allowed namespaces, skipping")].filter
        Event.isPutCurrent = [] := by
  refine ⟨treat_page_nsskip env page ?_, rfl, rfl, rfl⟩
  rw [hns, hign]
  rfl

/-- C8: a site without a data repository makes the bot construction fail
with the fatal error before any page is processed: the whole run returns
the error and produces no trace. -/
theorem claim_C8_no_repo_fatal (site : SiteConf) (env : Env)
    (pages : List Page)
    (h : site.has_data_repository = false) :
    bot_run site env pages = Except.error
      (site.name ++ " does not have a data repository, " ++
        "use interwiki.py instead.") := by
  simp [bot_run, h]

/-- C9: during item resolution, the candidate set contains exactly the
items found for some linked page - every failing lookup (missing page or
invalid title) is excluded without stopping the loop - and exactly one
warning is emitted per failing linked page. -/
theorem claim_C9_failures_excluded_with_warning (env : Env)
    (links : List (Site × String)) :
    (∀ it : Item, it ∈ (resolveLinks env links []).2 ↔
      ∃ l ∈ links, envLookup env l = Lookup.found it) ∧
    (resolveLinks env links []).1.countP Event.isWarning =
      links.countP (fun l => (envLookup env l).isFailure) := by
  constructor
  · intro it
    rw [resolveLinks_mem]
    simp
  · exact resolveLinks_warn_count env links []

/-- C10: with the clean option disabled, treat_page never saves page text;
its only mutations are repository-side. -/
theorem claim_C10_no_text_save_without_clean (env : Env) (page : Page)
    (evs : List Event)
    (hclean : env.clean = false)
    (hok : treat_page env page = Except.ok evs) :
    evs.filter Event.isPutCurrent = [] := by
  by_cases h1 : (!(allowedNamespaces.contains page.ns) && !env.ignore_ns) = true
  · rw [treat_page_nsskip env page h1] at hok
    injection hok with hevs
    subst hevs
    rfl
  · rw [Bool.not_eq_true] at h1
    by_cases h2 : getLanguageLinks page.text = []
    · rw [treat_page_nolinks env page h1 h2] at hok
      injection hok with hevs
      subst hevs
      rfl
    · cases h3 : envLookup env (page.site, page.title) with
      | found it =>
        rw [treat_page_withitem env page it h1 h2 h3] at hok
        injection hok with hevs
        subst hevs
        simp [List.filter_cons, Event.isPutCurrent,
          clean_step_of_not_clean env page _ _ hclean]
      | noPage =>
        rw [treat_page_noitem env page h1 h2 h3] at hok
        injection hok with hevs
        subst hevs
        have hro := resolve_or_create_filter_none env page
          (getLanguageLinks page.text) Event.isPutCurrent
          (fun _ _ => rfl) (fun _ => rfl) (fun _ => rfl)
          (fun _ _ _ => rfl) (fun _ _ _ => rfl)
        simp [List.filter_cons, List.filter_append, hro, Event.isPutCurrent,
          clean_step_of_not_clean env page _ _ hclean]
      | invalidTitle =>
        rw [treat_page_invalid env page h1 h2 h3] at hok
        exact Except.noConfusion hok

/-- Concrete sites used to exercise the embedded script. -/
def siteAA : Site := { dbName := "aawiki", lang := "aa" }

/-- A second concrete site, target of the sample language link. -/
def siteBB : Site := { dbName := "bbwiki", lang := "bb" }

/-- A concrete page on siteAA whose text embeds one language link to the
page X on siteBB. -/
def samplePage : Page :=
  { site := siteAA, title := "T", ns := 0,
    text := { langlinks := [(siteBB, "X")], body := "body" } }

/-- An item whose sitelinks do NOT cover the sample page's language-link
sites (bbwiki is missing). -/
def itemK1 : Item := { id := "Q1", sitelinks := [("aawiki", "T")], labels := [] }

/-- Clean mode, with the sample page connected to itemK1. -/
def envK1 : Env :=
  { fromPage := [((siteAA, "T"), Lookup.found itemK1)],
    clean := true, create := false, ignore_ns := false,
    summary := "clean summary" }

/-- An item whose sitelink set is a strict superset of the sample page's
language-link sites. -/
def itemK2 : Item :=
  { id := "Q2",
    sitelinks := [("aawiki", "T"), ("bbwiki", "X"), ("ccwiki", "Y")],
    labels := [] }

/-- Clean mode, with the sample page connected to itemK2. -/
def envK2 : Env :=
  { fromPage := [((siteAA, "T"), Lookup.found itemK2)],
    clean := true, create := false, ignore_ns := false,
    summary := "clean summary" }

/-- Create mode, with no item connected to any page. -/
def envK3 : Env :=
  { fromPage := [], clean := false, create := true, ignore_ns := false,
    summary := "clean summary" }

/-- C1 (code bug): with clean enabled and the embedded language-link sites
NOT contained in the item's sitelinks (bbwiki is missing from Q1), the
script still strips the links and saves the page, with no conflict
warning - clean_page's strict-subset test guards the conflict branch in
the inverted direction. -/
theorem clean_nonsubset_still_saves :
    ((getLanguageLinks samplePage.text).map (fun l => l.1.dbName)).all
      (fun d => (itemK1.sitelinks.map Prod.fst).contains d) = false ∧
    envK1.clean = true ∧
    treat_page envK1 samplePage = Except.ok
      [Event.lookupItem "aawiki" "T",
       Event.outputMsg "Cleaning up the page",
       Event.putCurrent { langlinks := [], body := "body" } "clean summary"] :=
  ⟨rfl, rfl, rfl⟩

/-- C2 (code bug): with clean enabled and the item's sitelink set a strict
superset of the embedded language-link sites, the script reports an
interwiki conflict and performs no page save, instead of cleaning the page
and saving with the configured summary. -/
theorem clean_superset_refuses_save :
    ((getLanguageLinks samplePage.text).map (fun l => l.1.dbName)).all
      (fun d => (itemK2.sitelinks.map Prod.fst).contains d) = true ∧
    envK2.clean = true ∧
    treat_page envK2 samplePage = Except.ok
      [Event.lookupItem "aawiki" "T",
       Event.warningMsg "Interwiki conflict in [[T]], skipping..."] ∧
    ([Event.lookupItem "aawiki" "T",
      Event.warningMsg "Interwiki conflict in [[T]], skipping..."].filter
        Event.isPutCurrent) = [] :=
  ⟨rfl, rfl, rfl, rfl⟩

/-- C3 (code bug): with create enabled, no item for the current page and
failed resolution (the only linked page has no item), the script never
calls editEntity: try_to_add returns False rather than None, so the
`item is None` guard before create_item can never fire and no item is
created. -/
theorem create_enabled_never_creates :
    envK3.create = true ∧
    treat_page envK3 samplePage = Except.ok
      [Event.lookupItem "aawiki" "T",
       Event.lookupItem "bbwiki" "X",
       Event.warningMsg "Interwiki [[X]] does not exist, skipping...",
       Event.warningMsg "Interwiki conflict in [[T]], skipping..."] ∧
    ([Event.lookupItem "aawiki" "T",
      Event.lookupItem "bbwiki" "X",
      Event.warningMsg "Interwiki [[X]] does not exist, skipping...",
      Event.warningMsg "Interwiki conflict in [[T]], skipping..."].filter
        Event.isEditEntity) = [] :=
  ⟨rfl, rfl, rfl⟩

/-- An item reachable through the sample page's language link, with no
sitelink for siteAA. -/
def itemW4 : Item := { id := "Q4", sitelinks := [("bbwiki", "X")], labels := [] }

/-- No clean, no create; linked page X on bbwiki carries itemW4. -/
def envW4 : Env :=
  { fromPage := [((siteBB, "X"), Lookup.found itemW4)],
    clean := false, create := false, ignore_ns := false, summary := "s" }

/-- No clean, no create, empty repository. -/
def envW5 : Env :=
  { fromPage := [], clean := false, create := false, ignore_ns := false,
    summary := "s" }

/-- A concrete page with no language links. -/
def pageW6 : Page :=
  { site := siteAA, title := "U", ns := 0,
    text := { langlinks := [], body := "b" } }

/-- A concrete page in a disallowed namespace. -/
def pageW7 : Page :=
  { site := siteAA, title := "V", ns := 3,
    text := { langlinks := [(siteBB, "X")], body := "b" } }

/-- A site configuration without a data repository. -/
def siteNoRepo : SiteConf := { name := "xxwiki", has_data_repository := false }

/-- Witness for C4 at a concrete input: the sample page's only link
resolves to itemW4, which has no aawiki sitelink, and the trace holds
exactly one sitelink addition and no item creation. -/
theorem claim_C4_witness :
    ([Event.lookupItem "aawiki" "T", Event.lookupItem "bbwiki" "X",
      Event.outputMsg "Adding link to Q4",
      Event.setSitelink itemW4 "aawiki" "T"].filter Event.isSetSitelink) =
        [Event.setSitelink itemW4 "aawiki" "T"] ∧
    ([Event.lookupItem "aawiki" "T", Event.lookupItem "bbwiki" "X",
      Event.outputMsg "Adding link to Q4",
      Event.setSitelink itemW4 "aawiki" "T"].filter Event.isEditEntity) = [] :=
  claim_C4_single_item_adds_sitelink envW4 samplePage itemW4
    [Event.lookupItem "aawiki" "T", Event.lookupItem "bbwiki" "X",
     Event.outputMsg "Adding link to Q4",
     Event.setSitelink itemW4 "aawiki" "T"]
    rfl (by decide) rfl rfl rfl rfl

/-- Witness for C5 at a concrete input: the sample page's only link has no
item, so the candidate set is empty (size 0, not 1); no mutation, no save,
a conflict warning. -/
theorem claim_C5_witness :
    ([Event.lookupItem "aawiki" "T", Event.lookupItem "bbwiki" "X",
      Event.warningMsg "Interwiki [[X]] does not exist, skipping...",
      Event.warningMsg "Interwiki conflict in [[T]], skipping..."].filter
        Event.isItemMutation) = [] ∧
    ([Event.lookupItem "aawiki" "T", Event.lookupItem "bbwiki" "X",
      Event.warningMsg "Interwiki [[X]] does not exist, skipping...",
      Event.warningMsg "Interwiki conflict in [[T]], skipping..."].filter
        Event.isPutCurrent) = [] ∧
    ∃ s : String, conflictWarning s ∈
      [Event.lookupItem "aawiki" "T", Event.lookupItem "bbwiki" "X",
       Event.warningMsg "Interwiki [[X]] does not exist, skipping...",
       Event.warningMsg "Interwiki conflict in [[T]], skipping..."] :=
  claim_C5_conflict_no_mutation envW5 samplePage
    [Event.lookupItem "aawiki" "T", Event.lookupItem "bbwiki" "X",
     Event.warningMsg "Interwiki [[X]] does not exist, skipping...",
     Event.warningMsg "Interwiki conflict in [[T]], skipping..."]
    rfl (by decide) rfl (Or.inl (by decide)) rfl

/-- Witness for C6 at a concrete input: a page with no language links gets
only the no-links notice. -/
theorem claim_C6_witness :
    treat_page envW5 pageW6 = Except.ok
      [Event.outputMsg ("No interlanguagelinks on " ++ titleAsLink pageW6)] ∧
    [Event.outputMsg
      ("No interlanguagelinks on " ++ titleAsLink pageW6)].filter
        Event.isLookup = [] ∧
    [Event.outputMsg
      ("No interlanguagelinks on " ++ titleAsLink pageW6)].filter
        Event.isItemMutation = [] ∧
    [Event.outputMsg
      ("No interlanguagelinks on " ++ titleAsLink pageW6)].filter
        Event.isPutCurrent = [] :=
  claim_C6_no_links_notice envW5 pageW6 rfl rfl

/-- Witness for C7 at a concrete input: a page in namespace 3 gets only
the namespace-skip notice. -/
theorem claim_C7_witness :
    treat_page envW5 pageW7 = Except.ok
      [Event.outputMsg
        (titleAsLink pageW7 ++ " is not in allowed namespaces, skipping")] ∧
    [Event.outputMsg
      (titleAsLink pageW7 ++ " is not in allowed namespaces, skipping")].filter
        Event.isLookup = [] ∧
    [Event.outputMsg
      (titleAsLink pageW7 ++ " is not in allowed namespaces, skipping")].filter
        Event.isItemMutation = [] ∧
    [Event.outputMsg
      (titleAsLink pageW7 ++ " is not in allowed namespaces, skipping")].filter
        Event.isPutCurrent = [] :=
  claim_C7_namespace_skip envW5 pageW7 rfl rfl

/-- Witness for C8 at a concrete input: a site without a data repository
makes the whole run fail with the fatal error. -/
theorem claim_C8_witness :
    bot_run siteNoRepo envW5 [samplePage] = Except.error
      (siteNoRepo.name ++ " does not have a data repository, " ++
        "use interwiki.py instead.") :=
  claim_C8_no_repo_fatal siteNoRepo envW5 [samplePage] rfl

/-- Witness for C10 at a concrete input: with clean disabled, the trace of
the sample page contains no page save. -/
theorem claim_C10_witness :
    ([Event.lookupItem "aawiki" "T", Event.lookupItem "bbwiki" "X",
      Event.warningMsg "Interwiki [[X]] does not exist, skipping...",
      Event.warningMsg "Interwiki conflict in [[T]], skipping..."].filter
        Event.isPutCurrent) = [] :=
  claim_C10_no_text_save_without_clean envW5 samplePage
    [Event.lookupItem "aawiki" "T", Event.lookupItem "bbwiki" "X",
     Event.warningMsg "Interwiki [[X]] does not exist, skipping...",
     Event.warningMsg "Interwiki conflict in [[T]], skipping..."]
    rfl rfl
